import Mathlib

/-!
Shallow embedding of `src/agent/src/namespace.rs` (kata-containers agent):
persistent Linux namespace creation (thread-based `Namespace::setup`) and the
fork/pipe-handshake user-namespace orchestrator (`setup_in_userns`), together
with the namespace-type catalog and the `uid_map`/`gid_map` writer.

External effects (filesystem, kernel calls, pipes) are modelled by oracle
structures whose fields give the result of each operation of one run, and
each modelled function additionally returns the ordered trace of effectful
operations it performed, so that claims about side effects and about what is
written can be stated over the trace.
-/

/-- Error values (modelling `anyhow::Error`): a message string. -/
structure NsError where
  msg : String
deriving DecidableEq, Repr

/-- Modelling `anyhow`'s `.context(...)`: wrap an error with a context message. -/
def NsError.context (e : NsError) (s : String) : NsError :=
  ⟨s ++ ": " ++ e.msg⟩

/-- Check whether an `Except` result is a success. -/
def exceptOk {α : Type} (r : Except NsError α) : Bool :=
  match r with
  | .ok _ => true
  | .error _ => false

/-- The ID-mapping triple (`oci::LinuxIdMapping` / `protocols::oci::LinuxIDMapping`,
whose fields are `u32`; the `from_vec` conversion between the two types is the
identity on these three fields). -/
structure LinuxIdMapping where
  container_id : Nat
  host_id : Nat
  size : Nat
deriving DecidableEq, Repr

/-- Kernel clone flag `CLONE_NEWIPC`. -/
def CLONE_NEWIPC : Nat := 0x08000000

/-- Kernel clone flag `CLONE_NEWUTS`. -/
def CLONE_NEWUTS : Nat := 0x04000000

/-- Kernel clone flag `CLONE_NEWPID`. -/
def CLONE_NEWPID : Nat := 0x20000000

/-- Kernel clone flag `CLONE_NEWUSER`. -/
def CLONE_NEWUSER : Nat := 0x10000000

/-- Kernel clone flag `CLONE_NEWNET`. -/
def CLONE_NEWNET : Nat := 0x40000000

/-- The `NamespaceType` enum of namespace.rs. -/
inductive NamespaceType where
  | Ipc
  | Uts
  | Pid
  | User
  | Net
deriving DecidableEq, Repr

/-- `NamespaceType::get`: the string representation of the namespace type. -/
def NamespaceType.get (t : NamespaceType) : String :=
  match t with
  | .Ipc => "ipc"
  | .Uts => "uts"
  | .Pid => "pid"
  | .User => "user"
  | .Net => "net"

/-- `NamespaceType::get_flags`: the clone flags associated with the namespace type. -/
def NamespaceType.get_flags (t : NamespaceType) : Nat :=
  match t with
  | .Ipc => CLONE_NEWIPC
  | .Uts => CLONE_NEWUTS
  | .Pid => CLONE_NEWPID
  | .User => CLONE_NEWUSER
  | .Net => CLONE_NEWNET

/-- `PERSISTENT_NS_DIR` constant. -/
def PERSISTENT_NS_DIR : String := "/var/run/sandbox-ns"

/-- `get_proc_ns_path(pid, ns_type)`. -/
def get_proc_ns_path (pid : Int) (ns_type : String) : String :=
  "/proc/" ++ toString pid ++ "/ns/" ++ ns_type

/-- `get_current_thread_ns_path(ns_type)`; `getpid()`/`gettid()` are supplied
by the run's oracle. -/
def get_current_thread_ns_path (pid tid : Int) (ns_type : String) : String :=
  "/proc/" ++ toString pid ++ "/task/" ++ toString tid ++ "/ns/" ++ ns_type

/-- `get_proc_id_map_path(pid, is_uid)`. -/
def get_proc_id_map_path (pid : Int) (is_uid : Bool) : String :=
  if is_uid then "/proc/" ++ toString pid ++ "/uid_map"
  else "/proc/" ++ toString pid ++ "/gid_map"

/-- Rust `PathBuf::from(dir).join(name)` for a relative `name`, rendered back
to a string: appends a separator when `dir` does not already end in one, and
an empty `dir` yields `name` itself. -/
def pathJoin (dir name : String) : String :=
  if dir.data = [] then name
  else if dir.data.getLast? = some '/' then dir ++ name
  else dir ++ "/" ++ name

/-- Trace entries: the effectful operations the modelled code performs, in
order, each emitted when the operation is attempted. -/
inductive NsEvent where
  | pipe
  | fork
  | closeFd (fd : Nat)
  | createDirAll (dir : String)
  | fileCreate (path : String)
  | fileOpen (path : String)
  | unshare (flags : Nat)
  | sethostname (h : String)
  | baremount (src dst : String)
  | mapOpen (path : String)
  | mapWrite (path : String) (data : String)
  | mapClose (path : String)
  | readSync
  | writeSync
  | wait
deriving DecidableEq, Repr

/-- Concatenation of a list of strings, modelling `Vec::<String>::join("")`. -/
def strConcat : List String → String
  | [] => ""
  | s :: rest => s ++ strConcat rest

/-- One line of the kernel id-map text format, from
`format!("<container_id> <host_id> <size>\n", ...)` in `write_mappings`. -/
def fmtMapping (m : LinuxIdMapping) : String :=
  toString m.container_id ++ " " ++ toString m.host_id ++ " " ++ toString m.size ++ "\n"

/-- The `data` string built by `write_mappings`: filter out zero-size entries,
format each remaining entry, join with the empty separator. -/
def mappingsData (maps : List LinuxIdMapping) : String :=
  strConcat ((maps.filter (fun m => m.size != 0)).map fmtMapping)

/-- Filesystem oracle for `write_mappings`: result of `fcntl::open(path, O_WRONLY)`
(an fd) and of `unistd::write(fd, data)` for this run. -/
structure FS where
  openWronly : String → Except NsError Nat
  write : Nat → String → Except NsError Unit

/-- `write_mappings(logger, path, maps)`: build the serialized text; when it is
non-empty, open the path write-only, write the whole buffer in one call, and
close the descriptor unconditionally (the `defer!`); when the text is empty,
do nothing and succeed. Returns the event trace and the result. -/
def write_mappings (fs : FS) (path : String) (maps : List LinuxIdMapping) :
    List NsEvent × Except NsError Unit :=
  let data := mappingsData maps
  if data.isEmpty then ([], .ok ())
  else
    match fs.openWronly path with
    | .error e => ([.mapOpen path], .error e)
    | .ok fd =>
      match fs.write fd data with
      | .error e => ([.mapOpen path, .mapWrite path data, .mapClose path], .error e)
      | .ok _ => ([.mapOpen path, .mapWrite path data, .mapClose path], .ok ())

/-- Order-preserving reformulation of `mappingsData`: the serialized text is
the in-order concatenation over the whole input list, with size-zero entries
contributing nothing. -/
theorem mappingsData_eq_map_join (maps : List LinuxIdMapping) :
    mappingsData maps =
      strConcat (maps.map (fun m => if m.size == 0 then "" else fmtMapping m)) := by
  induction maps with
  | nil => rfl
  | cons m rest ih =>
    by_cases h : m.size = 0
    · simp [mappingsData, List.filter_cons, h, strConcat, String.empty_append] at ih ⊢
      exact ih
    · simp [mappingsData, List.filter_cons, h, strConcat] at ih ⊢
      rw [ih]

/-- The `Namespace` struct (the `slog::Logger` field is external and omitted). -/
structure Namespace where
  path : String
  persistent_ns_dir : String
  ns_type : NamespaceType
  hostname : Option String
  uid_mappings : Option (List LinuxIdMapping)
  gid_mappings : Option (List LinuxIdMapping)
deriving DecidableEq, Repr

/-- `Namespace::new`: default state. -/
def Namespace.new : Namespace :=
  { path := ""
    persistent_ns_dir := PERSISTENT_NS_DIR
    ns_type := NamespaceType.Ipc
    hostname := none
    uid_mappings := none
    gid_mappings := none }

/-- `Namespace::get_ipc`. -/
def Namespace.get_ipc (self : Namespace) : Namespace :=
  { self with ns_type := NamespaceType.Ipc }

/-- `Namespace::get_uts`: sets the hostname only when it is non-empty. -/
def Namespace.get_uts (self : Namespace) (hostname : String) : Namespace :=
  let self := { self with ns_type := NamespaceType.Uts }
  if hostname.isEmpty then self
  else { self with hostname := some hostname }

/-- `Namespace::get_pid`. -/
def Namespace.get_pid (self : Namespace) : Namespace :=
  { self with ns_type := NamespaceType.Pid }

/-- `Namespace::get_user`: records uid/gid mapping lists only when non-empty. -/
def Namespace.get_user (self : Namespace)
    (uid_mappings gid_mappings : List LinuxIdMapping) : Namespace :=
  let self := { self with ns_type := NamespaceType.User }
  let self :=
    if uid_mappings.isEmpty then self
    else { self with uid_mappings := some uid_mappings }
  if gid_mappings.isEmpty then self
  else { self with gid_mappings := some gid_mappings }

/-- `Namespace::get_net`. -/
def Namespace.get_net (self : Namespace) : Namespace :=
  { self with ns_type := NamespaceType.Net }

/-- `Namespace::set_root_dir`. -/
def Namespace.set_root_dir (self : Namespace) (dir : String) : Namespace :=
  { self with persistent_ns_dir := dir }

/-- Oracle for one run of `Namespace::setup`: the result of each external
operation, plus the pid/tid of the worker thread's process and whether the
thread join succeeds. -/
structure SWorld where
  create_dir_all : String → Except NsError Unit
  file_create : String → Except NsError Unit
  file_open : String → Except NsError Unit
  unshare : Nat → Except NsError Unit
  sethostname : String → Except NsError Unit
  baremount : String → String → Except NsError Unit
  join_ok : Bool
  pid : Int
  tid : Int

/-- The conditional `sethostname` step of the worker thread: performed only
when the namespace type is UTS and a hostname was configured. -/
def hostnameStep (w : SWorld) (ns_type : NamespaceType) (hostname : Option String) :
    List NsEvent × Except NsError Unit :=
  match ns_type, hostname with
  | NamespaceType.Uts, some h =>
    match w.sethostname h with
    | .error e => ([.sethostname h], .error e)
    | .ok _ => ([.sethostname h], .ok ())
  | _, _ => ([], .ok ())

/-- Body of the worker thread spawned by `Namespace::setup`: open the current
thread's own proc-fs namespace link (validation), `unshare` with the kind's
flags, set the hostname for a configured UTS namespace, then recursively
bind-mount the link onto the target path. -/
def setupThreadBody (w : SWorld) (ns_type : NamespaceType) (hostname : Option String)
    (origin new_ns_path : String) : List NsEvent × Except NsError Unit :=
  match w.file_open origin with
  | .error e => ([.fileOpen origin], .error e)
  | .ok _ =>
    match w.unshare ns_type.get_flags with
    | .error e => ([.fileOpen origin, .unshare ns_type.get_flags], .error e)
    | .ok _ =>
      match hostnameStep w ns_type hostname with
      | (hevs, .error e) =>
        ([.fileOpen origin, .unshare ns_type.get_flags] ++ hevs, .error e)
      | (hevs, .ok _) =>
        match w.baremount origin new_ns_path with
        | .error e =>
          ([.fileOpen origin, .unshare ns_type.get_flags] ++ hevs
            ++ [.baremount origin new_ns_path], .error e)
        | .ok _ =>
          ([.fileOpen origin, .unshare ns_type.get_flags] ++ hevs
            ++ [.baremount origin new_ns_path], .ok ())

/-- `Namespace::setup`: create the persistence directory, reject the PID kind,
create the target file, record the target path in `self.path`, run the worker
thread, join it, and on success return the updated entity. On any error the
entity is consumed and nothing is returned to the caller. -/
def Namespace.setup (w : SWorld) (self : Namespace) :
    List NsEvent × Except NsError Namespace :=
  match w.create_dir_all self.persistent_ns_dir with
  | .error e => ([.createDirAll self.persistent_ns_dir], .error e)
  | .ok _ =>
    if self.ns_type = NamespaceType.Pid then
      ([.createDirAll self.persistent_ns_dir],
        .error ⟨"Cannot persist namespace of PID type"⟩)
    else
      let new_ns_path := pathJoin self.persistent_ns_dir self.ns_type.get
      match w.file_create new_ns_path with
      | .error e =>
        ([.createDirAll self.persistent_ns_dir, .fileCreate new_ns_path], .error e)
      | .ok _ =>
        let self1 := { self with path := new_ns_path }
        let origin := get_current_thread_ns_path w.pid w.tid self.ns_type.get
        let evs0 := [NsEvent.createDirAll self.persistent_ns_dir,
                     NsEvent.fileCreate new_ns_path]
        match setupThreadBody w self.ns_type self.hostname origin new_ns_path with
        | (tevs, tres) =>
          if w.join_ok then
            match tres with
            | .error e => (evs0 ++ tevs, .error e)
            | .ok _ => (evs0 ++ tevs, .ok self1)
          else
            (evs0 ++ tevs, .error ⟨"Failed to join thread"⟩)

/-- Oracle for one run of `setup_in_userns` as observed in the parent process:
pipe creation, the fork result (the child pid), and the result of each
parent-side external operation. The two `read_sync(prfd)` and the two
`write_sync(pwfd, SYNC_SUCCESS)` calls are keyed by occurrence. -/
structure PWorld where
  pipe1 : Except NsError (Nat × Nat)
  pipe2 : Except NsError (Nat × Nat)
  fork : Except NsError Int
  close : Nat → Except NsError Unit
  create_dir_all : String → Except NsError Unit
  file_create : String → Except NsError Unit
  fs : FS
  read_sync1 : Except NsError Unit
  write_sync1 : Except NsError Unit
  read_sync2 : Except NsError Unit
  write_sync2 : Except NsError Unit
  file_open : String → Except NsError Unit
  baremount : String → String → Except NsError Unit
  wait : Except NsError Unit

deriving instance DecidableEq for Except

/-- The caller-observable outcome of `setup_in_userns`: the event trace of the
parent process, the final states of the borrowed `userns` and dependent
`Namespace` values (mutated in place through `&mut`), and the result. -/
structure UsernsRun where
  events : List NsEvent
  userns : Namespace
  nses : List Namespace
  result : Except NsError Unit
deriving DecidableEq, Repr

/-- The parent-side loop over the dependent namespaces (`for ns in nses`):
reject the PID kind, create the persistence directory and the empty target
file, record the target path into the entity, and collect the
(proc-fs source, target) mount pair. Returns the events, the final entity
states, and on success the collected mount pairs. -/
def prepDeps (w : PWorld) (child : Int) :
    List Namespace → List NsEvent × List Namespace × Except NsError (List (String × String))
  | [] => ([], [], .ok [])
  | ns :: rest =>
    if ns.ns_type = NamespaceType.Pid then
      ([], ns :: rest, .error ⟨"Cannot persist namespace of PID type"⟩)
    else
      match w.create_dir_all ns.persistent_ns_dir with
      | .error e => ([.createDirAll ns.persistent_ns_dir], ns :: rest, .error e)
      | .ok _ =>
        let new_ns_path := pathJoin ns.persistent_ns_dir ns.ns_type.get
        match w.file_create new_ns_path with
        | .error e =>
          ([.createDirAll ns.persistent_ns_dir, .fileCreate new_ns_path],
            ns :: rest, .error e)
        | .ok _ =>
          let ns1 := { ns with path := new_ns_path }
          let origin := get_proc_ns_path child ns.ns_type.get
          match prepDeps w child rest with
          | (evs, rest1, res) =>
            ([.createDirAll ns.persistent_ns_dir, .fileCreate new_ns_path] ++ evs,
              ns1 :: rest1,
              match res with
              | .error e => .error e
              | .ok ms => .ok ((origin, new_ns_path) :: ms))

/-- The parent-side bind-mount loop over the collected (source, target) pairs:
open the source to validate it, then recursively bind-mount it onto the target. -/
def doMounts (w : PWorld) :
    List (String × String) → List NsEvent × Except NsError Unit
  | [] => ([], .ok ())
  | (src, dst) :: rest =>
    match w.file_open src with
    | .error e => ([.fileOpen src], .error e)
    | .ok _ =>
      match w.baremount src dst with
      | .error e => ([.fileOpen src, .baremount src dst], .error e)
      | .ok _ =>
        match doMounts w rest with
        | (evs, res) => ([.fileOpen src, .baremount src dst] ++ evs, res)

/-- One optional id-map write of the parent: `write_mappings` on the child's
`uid_map` or `gid_map` when a mapping list was configured, with the source's
error context. -/
def mapStep (w : PWorld) (path : String) (om : Option (List LinuxIdMapping))
    (ctx : String) : List NsEvent × Except NsError Unit :=
  match om with
  | none => ([], .ok ())
  | some ms =>
    match write_mappings w.fs path ms with
    | (evs, .error e) => (evs, .error (e.context ctx))
    | (evs, .ok _) => (evs, .ok ())

/-- The `ForkResult::Parent` arm of `setup_in_userns`: close the child's pipe
ends, prepare the user namespace target (directory, file, record the path,
collect the mount pair), run the dependent-namespace loop, then drive the
handshake: wait for the child's user-namespace token, write the uid/gid maps,
release the child, wait for the dependent-namespace token, perform all bind
mounts, release the child again, close the pipes and reap the child. -/
def parentBranch (w : PWorld) (child : Int) (prfd pwfd crfd cwfd : Nat)
    (userns : Namespace) (nses : List Namespace) : UsernsRun :=
  match w.close crfd with
  | .error e => ⟨[.closeFd crfd], userns, nses, .error e⟩
  | .ok _ =>
  match w.close cwfd with
  | .error e => ⟨[.closeFd crfd, .closeFd cwfd], userns, nses, .error e⟩
  | .ok _ =>
  let evs0 := [NsEvent.closeFd crfd, NsEvent.closeFd cwfd]
  match w.create_dir_all userns.persistent_ns_dir with
  | .error e => ⟨evs0 ++ [.createDirAll userns.persistent_ns_dir], userns, nses, .error e⟩
  | .ok _ =>
  let new_ns_path := pathJoin userns.persistent_ns_dir userns.ns_type.get
  match w.file_create new_ns_path with
  | .error e =>
    ⟨evs0 ++ [.createDirAll userns.persistent_ns_dir, .fileCreate new_ns_path],
      userns, nses, .error e⟩
  | .ok _ =>
  let userns1 := { userns with path := new_ns_path }
  let origin := get_proc_ns_path child userns.ns_type.get
  let evs1 := evs0 ++ [NsEvent.createDirAll userns.persistent_ns_dir,
                       NsEvent.fileCreate new_ns_path]
  match prepDeps w child nses with
  | (devs, nses1, .error e) => ⟨evs1 ++ devs, userns1, nses1, .error e⟩
  | (devs, nses1, .ok depMounts) =>
  let mounts := (origin, new_ns_path) :: depMounts
  let evs2 := evs1 ++ devs
  match w.read_sync1 with
  | .error e => ⟨evs2 ++ [.readSync], userns1, nses1, .error e⟩
  | .ok _ =>
  let evs3 := evs2 ++ [NsEvent.readSync]
  match mapStep w (get_proc_id_map_path child true) userns.uid_mappings
      "parent write childs uidmappings failed" with
  | (uevs, .error e) => ⟨evs3 ++ uevs, userns1, nses1, .error e⟩
  | (uevs, .ok _) =>
  match mapStep w (get_proc_id_map_path child false) userns.gid_mappings
      "parent write childs gidmappings failed" with
  | (gevs, .error e) => ⟨evs3 ++ uevs ++ gevs, userns1, nses1, .error e⟩
  | (gevs, .ok _) =>
  let evs4 := evs3 ++ uevs ++ gevs
  match w.write_sync1 with
  | .error e => ⟨evs4 ++ [.writeSync], userns1, nses1, .error e⟩
  | .ok _ =>
  match w.read_sync2 with
  | .error e => ⟨evs4 ++ [.writeSync, .readSync], userns1, nses1, .error e⟩
  | .ok _ =>
  let evs5 := evs4 ++ [NsEvent.writeSync, NsEvent.readSync]
  match doMounts w mounts with
  | (mevs, .error e) => ⟨evs5 ++ mevs, userns1, nses1, .error e⟩
  | (mevs, .ok _) =>
  let evs6 := evs5 ++ mevs
  match w.write_sync2 with
  | .error e => ⟨evs6 ++ [.writeSync], userns1, nses1, .error e⟩
  | .ok _ =>
  let evs7 := evs6 ++ [NsEvent.writeSync]
  match w.close prfd with
  | .error e => ⟨evs7 ++ [.closeFd prfd], userns1, nses1, .error e⟩
  | .ok _ =>
  match w.close pwfd with
  | .error e => ⟨evs7 ++ [.closeFd prfd, .closeFd pwfd], userns1, nses1, .error e⟩
  | .ok _ =>
  let evs8 := evs7 ++ [NsEvent.closeFd prfd, NsEvent.closeFd pwfd]
  match w.wait with
  | .error e => ⟨evs8 ++ [.wait], userns1, nses1, .error e⟩
  | .ok _ => ⟨evs8 ++ [.wait], userns1, nses1, .ok ()⟩

/-- `setup_in_userns(logger, userns, nses)` as observed in the parent process:
create the two pipes, fork (an explicit error before any pipe data on fork
failure), then run the `ForkResult::Parent` arm. -/
def setup_in_userns (w : PWorld) (userns : Namespace) (nses : List Namespace) :
    UsernsRun :=
  match w.pipe1 with
  | .error e => ⟨[.pipe], userns, nses, .error (e.context "failed to create pipe")⟩
  | .ok (prfd, cwfd) =>
  match w.pipe2 with
  | .error e => ⟨[.pipe, .pipe], userns, nses, .error (e.context "failed to create pipe")⟩
  | .ok (crfd, pwfd) =>
  match w.fork with
  | .error _ =>
    ⟨[.pipe, .pipe], userns, nses, .error ⟨"failed to fork namespace setup process"⟩⟩
  | .ok child =>
    let run := parentBranch w child prfd pwfd crfd cwfd userns nses
    ⟨[.pipe, .pipe, .fork] ++ run.events, run.userns, run.nses, run.result⟩

/-- Oracle for one run of the `ForkResult::Child` arm of `setup_in_userns`:
the result of each child-side external operation for this run. -/
structure CWorld where
  close_prfd : Except NsError Unit
  close_pwfd : Except NsError Unit
  unshare : Nat → Except NsError Unit
  write_sync1 : Except NsError Unit
  read_sync1 : Except NsError Unit
  setid : Except NsError Unit
  sethostname : String → Except NsError Unit
  write_sync2 : Except NsError Unit
  read_sync2 : Except NsError Unit

/-- What becomes of the forked child process running the `ForkResult::Child`
arm: either the process terminates via `std::process::exit(code)`, or the
`setup_in_userns` call returns an error inside the still-running child
process (every `?` / `return Err` in that arm). -/
inductive ChildOutcome where
  | exited (code : Nat)
  | errored (e : NsError)
deriving DecidableEq, Repr

/-- The child-side loop over the dependent namespaces: unshare into each one
(with the source's per-kind error context) and set the hostname for a
configured UTS namespace. -/
def childDeps (w : CWorld) : List Namespace → Except NsError Unit
  | [] => .ok ()
  | ns :: rest =>
    match w.unshare ns.ns_type.get_flags with
    | .error e =>
      .error (e.context ("child unshare " ++ ns.ns_type.get ++ " ns failed"))
    | .ok _ =>
      match ns.ns_type, ns.hostname with
      | NamespaceType.Uts, some h =>
        (match w.sethostname h with
         | .error e => .error e
         | .ok _ => childDeps w rest)
      | _, _ => childDeps w rest

/-- Whether every dependent-namespace step of the child succeeds. -/
def childDepsOk (w : CWorld) : List Namespace → Bool
  | [] => true
  | ns :: rest =>
    exceptOk (w.unshare ns.ns_type.get_flags) &&
    (match ns.ns_type, ns.hostname with
     | NamespaceType.Uts, some h => exceptOk (w.sethostname h)
     | _, _ => true) &&
    childDepsOk w rest

/-- The `ForkResult::Child` arm of `setup_in_userns`: close the parent's pipe
ends, unshare into the new user namespace, send the userns-ready token, wait
for the parent's mappings-written token, assume root identity, unshare the
dependent namespaces, send the deps-ready token, wait for the persisted
token, then terminate with exit code 0. -/
def childBranch (w : CWorld) (userns : Namespace) (nses : List Namespace) :
    ChildOutcome :=
  match w.close_prfd with
  | .error e => .errored e
  | .ok _ =>
  match w.close_pwfd with
  | .error e => .errored e
  | .ok _ =>
  match w.unshare userns.ns_type.get_flags with
  | .error e => .errored (e.context "child unshare user ns failed")
  | .ok _ =>
  match w.write_sync1 with
  | .error e => .errored e
  | .ok _ =>
  match w.read_sync1 with
  | .error e => .errored e
  | .ok _ =>
  match w.setid with
  | .error e => .errored e
  | .ok _ =>
  match childDeps w nses with
  | .error e => .errored e
  | .ok _ =>
  match w.write_sync2 with
  | .error e => .errored e
  | .ok _ =>
  match w.read_sync2 with
  | .error e => .errored e
  | .ok _ => .exited 0

/-- Whether every child-side step of one run succeeds. -/
def childOk (w : CWorld) (userns : Namespace) (nses : List Namespace) : Bool :=
  exceptOk w.close_prfd && exceptOk w.close_pwfd &&
  exceptOk (w.unshare userns.ns_type.get_flags) &&
  exceptOk w.write_sync1 && exceptOk w.read_sync1 && exceptOk w.setid &&
  childDepsOk w nses && exceptOk w.write_sync2 && exceptOk w.read_sync2

/-- Abstract handshake steps of a successful `setup_in_userns` run, one
constructor per statement group of the parent arm (p-prefixed, in source
order) and of the child arm (c-prefixed, in source order). -/
inductive HEv where
  | pClosePipes
  | pPrepare
  | pRecvA1
  | pWriteUidMap
  | pWriteGidMap
  | pSendB1
  | pRecvA2
  | pMounts
  | pSendB2
  | pCloseEnds
  | pWait
  | cClosePipes
  | cUnshareUser
  | cSendA1
  | cRecvB1
  | cSetid
  | cUnshareDeps
  | cSendA2
  | cRecvB2
  | cExit
deriving DecidableEq, Repr, Fintype

/-- The parent arm's steps in program order: close the child's pipe ends,
prepare directories/files/mount pairs, `read_sync(prfd)`, write the uid map,
write the gid map, `write_sync(pwfd)`, `read_sync(prfd)`, perform all bind
mounts, `write_sync(pwfd)`, close the pipe ends, `wait()`. -/
def parentProg : List HEv :=
  [.pClosePipes, .pPrepare, .pRecvA1, .pWriteUidMap, .pWriteGidMap, .pSendB1,
   .pRecvA2, .pMounts, .pSendB2, .pCloseEnds, .pWait]

/-- The child arm's steps in program order: close the parent's pipe ends,
unshare the user namespace, `write_sync(cwfd)`, `read_sync(crfd)`, `setid`,
unshare the dependent namespaces (with hostname setting), `write_sync(cwfd)`,
`read_sync(crfd)`, `exit(0)`. -/
def childProg : List HEv :=
  [.cClosePipes, .cUnshareUser, .cSendA1, .cRecvB1, .cSetid, .cUnshareDeps,
   .cSendA2, .cRecvB2, .cExit]

/-- Step `a` precedes step `b` in the program `prog`. -/
def progBefore (prog : List HEv) (a b : HEv) : Prop :=
  a ∈ prog ∧ b ∈ prog ∧ prog.indexOf a < prog.indexOf b

instance (prog : List HEv) (a b : HEv) : Decidable (progBefore prog a b) := by
  unfold progBefore
  infer_instance

/-- A complete successful run of the two-process handshake, given by the
global time `pos s` of each step `s`: each process executes its own steps in
program order, and a blocking pipe read returns only after the matching
write, for each of the four token exchanges (child-to-parent pipe A read via
`prfd`, parent-to-child pipe B read via `crfd`). -/
structure ValidSchedule (pos : HEv → Nat) : Prop where
  parent_order : ∀ a b, progBefore parentProg a b → pos a < pos b
  child_order : ∀ a b, progBefore childProg a b → pos a < pos b
  pipe_userns_ready : pos HEv.cSendA1 < pos HEv.pRecvA1
  pipe_maps_written : pos HEv.pSendB1 < pos HEv.cRecvB1
  pipe_deps_ready : pos HEv.cSendA2 < pos HEv.pRecvA2
  pipe_persisted : pos HEv.pSendB2 < pos HEv.cRecvB2

/-- A fully succeeding filesystem oracle for witnesses. -/
def fsOkW : FS :=
  { openWronly := fun _ => .ok 3
    write := fun _ _ => .ok () }

/-- A filesystem oracle where the target path cannot even be opened
(non-existent or unwritable path). -/
def fsBadW : FS :=
  { openWronly := fun _ => .error ⟨"No such file or directory"⟩
    write := fun _ _ => .error ⟨"EBADF"⟩ }

/-- A fully succeeding oracle for `Namespace::setup` runs. -/
def swAllOk : SWorld :=
  { create_dir_all := fun _ => .ok ()
    file_create := fun _ => .ok ()
    file_open := fun _ => .ok ()
    unshare := fun _ => .ok ()
    sethostname := fun _ => .ok ()
    baremount := fun _ _ => .ok ()
    join_ok := true
    pid := 42
    tid := 43 }

/-- A fully succeeding oracle for parent-side `setup_in_userns` runs. -/
def pwAllOk : PWorld :=
  { pipe1 := .ok (3, 4)
    pipe2 := .ok (5, 6)
    fork := .ok 1234
    close := fun _ => .ok ()
    create_dir_all := fun _ => .ok ()
    file_create := fun _ => .ok ()
    fs := fsOkW
    read_sync1 := .ok ()
    write_sync1 := .ok ()
    read_sync2 := .ok ()
    write_sync2 := .ok ()
    file_open := fun _ => .ok ()
    baremount := fun _ _ => .ok ()
    wait := .ok () }

/-- A fully succeeding oracle for child-side `setup_in_userns` runs. -/
def cwAllOk : CWorld :=
  { close_prfd := .ok ()
    close_pwfd := .ok ()
    unshare := fun _ => .ok ()
    write_sync1 := .ok ()
    read_sync1 := .ok ()
    setid := .ok ()
    sethostname := fun _ => .ok ()
    write_sync2 := .ok ()
    read_sync2 := .ok () }

/-- Claim C9: the namespace-type catalog is a pure total function on the
closed set of the five kinds, returning for each kind its fixed proc-fs name
and kernel unshare flag pair. -/
theorem namespace_type_catalog_spec :
    (NamespaceType.Ipc.get = "ipc" ∧ NamespaceType.Ipc.get_flags = CLONE_NEWIPC) ∧
    (NamespaceType.Uts.get = "uts" ∧ NamespaceType.Uts.get_flags = CLONE_NEWUTS) ∧
    (NamespaceType.Pid.get = "pid" ∧ NamespaceType.Pid.get_flags = CLONE_NEWPID) ∧
    (NamespaceType.User.get = "user" ∧ NamespaceType.User.get_flags = CLONE_NEWUSER) ∧
    (NamespaceType.Net.get = "net" ∧ NamespaceType.Net.get_flags = CLONE_NEWNET) ∧
    (∀ t : NamespaceType,
      t = NamespaceType.Ipc ∨ t = NamespaceType.Uts ∨ t = NamespaceType.Pid ∨
      t = NamespaceType.User ∨ t = NamespaceType.Net) := by
  refine ⟨by decide, by decide, by decide, by decide, by decide, ?_⟩
  intro t
  cases t <;> simp

/-- Claim C4: `write_mappings` discards exactly the zero-size entries,
serializes each remaining entry as one `container_id host_id size` line in
original input order, and writes the whole text to the file in one write
(opening, writing once, and closing). -/
theorem write_mappings_single_write (fs : FS) (path : String)
    (maps : List LinuxIdMapping) (fd : Nat)
    (hopen : fs.openWronly path = .ok fd)
    (hwrite : fs.write fd (mappingsData maps) = .ok ())
    (hne : mappingsData maps ≠ "") :
    write_mappings fs path maps =
      ([.mapOpen path, .mapWrite path (mappingsData maps), .mapClose path], .ok ()) ∧
    mappingsData maps =
      strConcat (maps.map (fun m => if m.size == 0 then "" else fmtMapping m)) := by
  have hfalse : (mappingsData maps).isEmpty = false := by
    rcases h : (mappingsData maps).isEmpty with _ | _
    · rfl
    · exact absurd ((String.isEmpty_iff _).mp h) hne
  refine ⟨?_, mappingsData_eq_map_join maps⟩
  simp [write_mappings, hfalse, hopen, hwrite]

/-- Witness for C4: a concrete mixed zero/non-zero mapping list. -/
theorem write_mappings_single_write_witness :
    write_mappings fsOkW "/proc/1234/uid_map"
        [⟨0, 100000, 65536⟩, ⟨5, 6, 0⟩, ⟨7, 8, 9⟩] =
      ([.mapOpen "/proc/1234/uid_map",
        .mapWrite "/proc/1234/uid_map"
          (mappingsData [⟨0, 100000, 65536⟩, ⟨5, 6, 0⟩, ⟨7, 8, 9⟩]),
        .mapClose "/proc/1234/uid_map"], .ok ()) ∧
    mappingsData [⟨0, 100000, 65536⟩, ⟨5, 6, 0⟩, ⟨7, 8, 9⟩] =
      strConcat ([⟨0, 100000, 65536⟩, ⟨5, 6, 0⟩, ⟨7, 8, 9⟩].map
        (fun m : LinuxIdMapping => if m.size == 0 then "" else fmtMapping m)) :=
  write_mappings_single_write fsOkW "/proc/1234/uid_map"
    [⟨0, 100000, 65536⟩, ⟨5, 6, 0⟩, ⟨7, 8, 9⟩] 3 rfl rfl (by decide)

/-- Claim C5: when every entry has size 0 (or the list is empty), the
serialized text is empty and `write_mappings` succeeds without opening the
target path, whatever the filesystem would answer. -/
theorem write_mappings_empty_noop (fs : FS) (path : String)
    (maps : List LinuxIdMapping)
    (h : maps.all (fun m => m.size == 0) = true) :
    write_mappings fs path maps = ([], .ok ()) := by
  have hfilter : maps.filter (fun m => m.size != 0) = [] := by
    rw [List.filter_eq_nil_iff]
    intro a ha
    have := List.all_eq_true.mp h a ha
    simpa using this
  have hdata : mappingsData maps = "" := by
    unfold mappingsData
    rw [hfilter]
    rfl
  have hemp : ("" : String).isEmpty = true := rfl
  simp [write_mappings, hdata, hemp]

/-- Witness for C5: an all-zero list against an unwritable path succeeds with
no events. -/
theorem write_mappings_empty_noop_witness :
    write_mappings fsBadW "/nonexistent/uid_map" [⟨0, 0, 0⟩, ⟨7, 8, 0⟩] =
      ([], .ok ()) :=
  write_mappings_empty_noop fsBadW "/nonexistent/uid_map"
    [⟨0, 0, 0⟩, ⟨7, 8, 0⟩] (by decide)

theorem setup_ok_path (w : SWorld) (ns ns2 : Namespace)
    (h : (Namespace.setup w ns).2 = .ok ns2) :
    ns2.path = pathJoin ns.persistent_ns_dir ns.ns_type.get := by
  unfold Namespace.setup at h
  cases hc : w.create_dir_all ns.persistent_ns_dir
  · simp [hc] at h
  · by_cases hp : ns.ns_type = NamespaceType.Pid
    · simp [hc, hp] at h
    · cases hf : w.file_create (pathJoin ns.persistent_ns_dir ns.ns_type.get)
      · simp [hc, hp, hf] at h
      · rcases ht : setupThreadBody w ns.ns_type ns.hostname
            (get_current_thread_ns_path w.pid w.tid ns.ns_type.get)
            (pathJoin ns.persistent_ns_dir ns.ns_type.get) with ⟨tevs, tres⟩
        by_cases hj : w.join_ok
        · cases tres with
          | error e => simp [hc, hp, hf, ht, hj] at h
          | ok u =>
            simp [hc, hp, hf, ht, hj] at h
            rw [← h]
        · simp [hc, hp, hf, ht, hj] at h

theorem setup_pid_err (w : SWorld) (ns : Namespace)
    (h : ns.ns_type = NamespaceType.Pid) :
    ∃ e, (Namespace.setup w ns).2 = .error e := by
  unfold Namespace.setup
  cases hc : w.create_dir_all ns.persistent_ns_dir with
  | error e => exact ⟨e, by simp [hc]⟩
  | ok u => exact ⟨⟨"Cannot persist namespace of PID type"⟩, by simp [hc, h]⟩

/-- Claim C7: when `setup` succeeds, the resulting `path` is the configured
persistence root joined with the kind's catalog name; the catalog names form
the set ipc/uts/pid/user/net and the default persistence root is
`/var/run/sandbox-ns`. -/
theorem setup_success_path_layout (w : SWorld) (ns ns2 : Namespace)
    (h : (Namespace.setup w ns).2 = .ok ns2) :
    ns2.path = pathJoin ns.persistent_ns_dir ns.ns_type.get ∧
    ns.ns_type.get ∈ ["ipc", "uts", "pid", "user", "net"] ∧
    Namespace.new.persistent_ns_dir = "/var/run/sandbox-ns" := by
  refine ⟨setup_ok_path w ns ns2 h, ?_, rfl⟩
  cases h2 : ns.ns_type <;> decide

/-- Witness for C7: a successful IPC setup on the default configuration. -/
theorem setup_success_path_layout_witness :
    ({ Namespace.new with path := "/var/run/sandbox-ns/ipc" } : Namespace).path =
      pathJoin Namespace.new.persistent_ns_dir Namespace.new.ns_type.get ∧
    Namespace.new.ns_type.get ∈ ["ipc", "uts", "pid", "user", "net"] ∧
    Namespace.new.persistent_ns_dir = "/var/run/sandbox-ns" :=
  setup_success_path_layout swAllOk Namespace.new
    { Namespace.new with path := "/var/run/sandbox-ns/ipc" } (by decide)

/-- Claim C2 (amended): `setup` on a PID-kind namespace always fails and never
creates the target file, and when directory creation succeeds the error is
the cannot-persist message; but the recursive creation of the persistence
directory is attempted before the PID check. -/
theorem setup_pid_fails_after_dir_create (w : SWorld) (ns : Namespace)
    (h : ns.ns_type = NamespaceType.Pid) :
    (∃ e, (Namespace.setup w ns).2 = .error e) ∧
    (Namespace.setup w ns).1 = [NsEvent.createDirAll ns.persistent_ns_dir] ∧
    (∀ p, NsEvent.fileCreate p ∉ (Namespace.setup w ns).1) ∧
    (w.create_dir_all ns.persistent_ns_dir = .ok () →
      (Namespace.setup w ns).2 = .error ⟨"Cannot persist namespace of PID type"⟩) := by
  refine ⟨setup_pid_err w ns h, ?_, ?_, ?_⟩ <;>
    cases hc : w.create_dir_all ns.persistent_ns_dir
  · simp [Namespace.setup, hc]
  · simp [Namespace.setup, hc, h]
  · simp [Namespace.setup, hc]
  · simp [Namespace.setup, hc, h]
  · intro heq
    simp at heq
  · intro _
    simp [Namespace.setup, hc, h]

/-- Counterexample for C2 as stated: on a PID-kind namespace with an
all-succeeding filesystem, `setup` still performs the recursive
create-directory operation on the persistence directory before failing, so
the run is not free of filesystem mutation. -/
theorem setup_pid_mutation_counterexample :
    (Namespace.setup swAllOk Namespace.new.get_pid).1 =
      [NsEvent.createDirAll "/var/run/sandbox-ns"] ∧
    (Namespace.setup swAllOk Namespace.new.get_pid).1 ≠ [] := by
  decide

/-- Witness for C2's amended theorem at a concrete PID-kind namespace. -/
theorem setup_pid_fails_after_dir_create_witness :
    (∃ e, (Namespace.setup swAllOk Namespace.new.get_pid).2 = .error e) ∧
    (Namespace.setup swAllOk Namespace.new.get_pid).1 =
      [NsEvent.createDirAll Namespace.new.get_pid.persistent_ns_dir] ∧
    (∀ p, NsEvent.fileCreate p ∉ (Namespace.setup swAllOk Namespace.new.get_pid).1) ∧
    (swAllOk.create_dir_all Namespace.new.get_pid.persistent_ns_dir = .ok () →
      (Namespace.setup swAllOk Namespace.new.get_pid).2 =
        .error ⟨"Cannot persist namespace of PID type"⟩) :=
  setup_pid_fails_after_dir_create swAllOk Namespace.new.get_pid rfl

/-- Claim C6: in every complete successful run of the handshake, the child's
user-namespace unshare precedes the parent's uid/gid map writes; those writes
precede the child's setid and dependent unshares; all namespace creations
precede the parent's bind mounts; and the bind mounts precede the child's
exit. -/
theorem handshake_ordering (pos : HEv → Nat) (h : ValidSchedule pos) :
    (pos HEv.cUnshareUser < pos HEv.pWriteUidMap ∧
     pos HEv.cUnshareUser < pos HEv.pWriteGidMap) ∧
    (pos HEv.pWriteUidMap < pos HEv.cSetid ∧
     pos HEv.pWriteGidMap < pos HEv.cSetid ∧
     pos HEv.pWriteUidMap < pos HEv.cUnshareDeps ∧
     pos HEv.pWriteGidMap < pos HEv.cUnshareDeps) ∧
    (pos HEv.cUnshareUser < pos HEv.pMounts ∧
     pos HEv.cUnshareDeps < pos HEv.pMounts) ∧
    pos HEv.pMounts < pos HEv.cExit := by
  have h1 := h.child_order HEv.cUnshareUser HEv.cSendA1 (by decide)
  have h2 := h.pipe_userns_ready
  have h3 := h.parent_order HEv.pRecvA1 HEv.pWriteUidMap (by decide)
  have h4 := h.parent_order HEv.pRecvA1 HEv.pWriteGidMap (by decide)
  have h5 := h.parent_order HEv.pWriteUidMap HEv.pSendB1 (by decide)
  have h6 := h.parent_order HEv.pWriteGidMap HEv.pSendB1 (by decide)
  have h7 := h.pipe_maps_written
  have h8 := h.child_order HEv.cRecvB1 HEv.cSetid (by decide)
  have h9 := h.child_order HEv.cRecvB1 HEv.cUnshareDeps (by decide)
  have h10 := h.child_order HEv.cUnshareDeps HEv.cSendA2 (by decide)
  have h11 := h.pipe_deps_ready
  have h12 := h.parent_order HEv.pRecvA2 HEv.pMounts (by decide)
  have h13 := h.parent_order HEv.pMounts HEv.pSendB2 (by decide)
  have h14 := h.pipe_persisted
  have h15 := h.child_order HEv.cRecvB2 HEv.cExit (by decide)
  omega

/-- The sequential interleaving realizing the handshake protocol. -/
def posStraight : HEv → Nat
  | .pClosePipes => 0
  | .cClosePipes => 1
  | .cUnshareUser => 2
  | .cSendA1 => 3
  | .pPrepare => 4
  | .pRecvA1 => 5
  | .pWriteUidMap => 6
  | .pWriteGidMap => 7
  | .pSendB1 => 8
  | .cRecvB1 => 9
  | .cSetid => 10
  | .cUnshareDeps => 11
  | .cSendA2 => 12
  | .pRecvA2 => 13
  | .pMounts => 14
  | .pSendB2 => 15
  | .cRecvB2 => 16
  | .cExit => 17
  | .pCloseEnds => 18
  | .pWait => 19

/-- Witness for C6: the orderings hold on a concrete valid schedule. -/
theorem handshake_ordering_witness :
    (posStraight HEv.cUnshareUser < posStraight HEv.pWriteUidMap ∧
     posStraight HEv.cUnshareUser < posStraight HEv.pWriteGidMap) ∧
    (posStraight HEv.pWriteUidMap < posStraight HEv.cSetid ∧
     posStraight HEv.pWriteGidMap < posStraight HEv.cSetid ∧
     posStraight HEv.pWriteUidMap < posStraight HEv.cUnshareDeps ∧
     posStraight HEv.pWriteGidMap < posStraight HEv.cUnshareDeps) ∧
    (posStraight HEv.cUnshareUser < posStraight HEv.pMounts ∧
     posStraight HEv.cUnshareDeps < posStraight HEv.pMounts) ∧
    posStraight HEv.pMounts < posStraight HEv.cExit :=
  handshake_ordering posStraight
    ⟨by decide, by decide, by decide, by decide, by decide, by decide⟩

theorem childDeps_ok_iff (w : CWorld) (l : List Namespace) :
    (childDeps w l = .ok () ↔ childDepsOk w l = true) ∧
    (childDepsOk w l = false → ∃ e, childDeps w l = .error e) := by
  induction l with
  | nil => simp [childDeps, childDepsOk]
  | cons ns rest ih =>
    obtain ⟨p, d, t, hn, um, gm⟩ := ns
    cases hu : w.unshare t.get_flags with
    | error e =>
      cases t <;> cases hn <;> simp [childDeps, childDepsOk, hu, exceptOk]
    | ok u =>
      cases t <;> cases hn <;>
        simp [childDeps, childDepsOk, hu, exceptOk, ih]
      all_goals try exact ih.2
      all_goals
        rename_i hname
        cases hs : w.sethostname hname with
        | error e => simp [hs, exceptOk]
        | ok u2 =>
          simp [hs, exceptOk, ih]
          try exact ih.2

/-- Claim C10: the child arm terminates the child process only on its success
path, with exit code 0, after every step has succeeded; every child-side
failure makes `setup_in_userns` return an error inside the still-running
forked child process instead of terminating it. -/
theorem child_failure_returns_error (w : CWorld) (userns : Namespace)
    (nses : List Namespace) :
    (childBranch w userns nses = .exited 0 ↔ childOk w userns nses = true) ∧
    (childOk w userns nses = false → ∃ e, childBranch w userns nses = .errored e) ∧
    (∀ c, childBranch w userns nses = .exited c → c = 0) := by
  cases h1 : w.close_prfd with
  | error e => simp [childBranch, childOk, h1, exceptOk]
  | ok u1 =>
  cases h2 : w.close_pwfd with
  | error e => simp [childBranch, childOk, h1, h2, exceptOk]
  | ok u2 =>
  cases h3 : w.unshare userns.ns_type.get_flags with
  | error e => simp [childBranch, childOk, h1, h2, h3, exceptOk]
  | ok u3 =>
  cases h4 : w.write_sync1 with
  | error e => simp [childBranch, childOk, h1, h2, h3, h4, exceptOk]
  | ok u4 =>
  cases h5 : w.read_sync1 with
  | error e => simp [childBranch, childOk, h1, h2, h3, h4, h5, exceptOk]
  | ok u5 =>
  cases h6 : w.setid with
  | error e => simp [childBranch, childOk, h1, h2, h3, h4, h5, h6, exceptOk]
  | ok u6 =>
  cases hd : childDeps w nses with
  | error e =>
    have hdo : childDepsOk w nses = false := by
      cases hb : childDepsOk w nses
      · rfl
      · have hx := (childDeps_ok_iff w nses).1.mpr hb
        rw [hd] at hx
        cases hx
    simp [childBranch, childOk, h1, h2, h3, h4, h5, h6, hd, hdo, exceptOk]
  | ok u7 =>
    have hdo : childDepsOk w nses = true := by
      cases u7
      exact (childDeps_ok_iff w nses).1.mp hd
    cases h8 : w.write_sync2 with
    | error e =>
      simp [childBranch, childOk, h1, h2, h3, h4, h5, h6, hd, hdo, h8, exceptOk]
    | ok u8 =>
    cases h9 : w.read_sync2 with
    | error e =>
      simp [childBranch, childOk, h1, h2, h3, h4, h5, h6, hd, hdo, h8, h9, exceptOk]
    | ok u9 =>
      simp [childBranch, childOk, h1, h2, h3, h4, h5, h6, hd, hdo, h8, h9, exceptOk]

/-- Witness for C10: the all-success child run exits with code 0. -/
theorem child_failure_returns_error_witness :
    childBranch cwAllOk Namespace.new [] = ChildOutcome.exited 0 :=
  (child_failure_returns_error cwAllOk Namespace.new []).1.mpr (by decide)

/-- Relation between an input `Namespace` and its caller-observable state
after a `setup_in_userns` run: the `path` is either untouched or set to the
designated target path, and a PID-kind entity's `path` is always untouched. -/
def pathRel (a b : Namespace) : Prop :=
  (b.path = a.path ∨ b.path = pathJoin a.persistent_ns_dir a.ns_type.get) ∧
  (a.ns_type = NamespaceType.Pid → b.path = a.path)

theorem pathRel_refl (l : List Namespace) : List.Forall₂ pathRel l l :=
  List.forall₂_same.mpr (fun _ _ => ⟨Or.inl rfl, fun _ => rfl⟩)

theorem prepDeps_rel (w : PWorld) (child : Int) (l : List Namespace) :
    List.Forall₂ pathRel l (prepDeps w child l).2.1 := by
  induction l with
  | nil => simp [prepDeps]
  | cons ns rest ih =>
    by_cases hp : ns.ns_type = NamespaceType.Pid
    · have h2 : (prepDeps w child (ns :: rest)).2.1 = ns :: rest := by
        simp [prepDeps, hp]
      rw [h2]
      exact pathRel_refl _
    · cases hc : w.create_dir_all ns.persistent_ns_dir with
      | error e =>
        have h2 : (prepDeps w child (ns :: rest)).2.1 = ns :: rest := by
          simp [prepDeps, hp, hc]
        rw [h2]
        exact pathRel_refl _
      | ok u =>
        cases hf : w.file_create (pathJoin ns.persistent_ns_dir ns.ns_type.get) with
        | error e =>
          have h2 : (prepDeps w child (ns :: rest)).2.1 = ns :: rest := by
            simp [prepDeps, hp, hc, hf]
          rw [h2]
          exact pathRel_refl _
        | ok u2 =>
          rcases hrec : prepDeps w child rest with ⟨evs, rest1, res⟩
          have h2 : (prepDeps w child (ns :: rest)).2.1 =
              { ns with path := pathJoin ns.persistent_ns_dir ns.ns_type.get } :: rest1 := by
            simp [prepDeps, hp, hc, hf, hrec]
          rw [h2]
          refine List.Forall₂.cons ⟨Or.inr rfl, fun hpid => absurd hpid hp⟩ ?_
          have h3 := ih
          rw [hrec] at h3
          exact h3

theorem prepDeps_pid_error (w : PWorld) (child : Int) (l : List Namespace)
    (h : ∃ ns ∈ l, ns.ns_type = NamespaceType.Pid) :
    ∃ e, (prepDeps w child l).2.2 = .error e := by
  induction l with
  | nil =>
    rcases h with ⟨ns, hmem, _⟩
    cases hmem
  | cons x rest ih =>
    by_cases hp : x.ns_type = NamespaceType.Pid
    · exact ⟨⟨"Cannot persist namespace of PID type"⟩, by simp [prepDeps, hp]⟩
    · have hrest : ∃ ns ∈ rest, ns.ns_type = NamespaceType.Pid := by
        rcases h with ⟨ns, hmem, hns⟩
        rcases List.mem_cons.mp hmem with rfl | hmem2
        · exact absurd hns hp
        · exact ⟨ns, hmem2, hns⟩
      cases hc : w.create_dir_all x.persistent_ns_dir with
      | error e => exact ⟨e, by simp [prepDeps, hp, hc]⟩
      | ok u =>
        cases hf : w.file_create (pathJoin x.persistent_ns_dir x.ns_type.get) with
        | error e => exact ⟨e, by simp [prepDeps, hp, hc, hf]⟩
        | ok u2 =>
          rcases hrec : prepDeps w child rest with ⟨evs, rest1, res⟩
          rcases ih hrest with ⟨e, he⟩
          rw [hrec] at he
          simp at he
          exact ⟨e, by simp [prepDeps, hp, hc, hf, hrec, he]⟩

theorem prepDeps_events (w : PWorld) (child : Int) (l : List Namespace) :
    ∀ ev ∈ (prepDeps w child l).1,
      (∃ d, ev = NsEvent.createDirAll d) ∨ ∃ p, ev = NsEvent.fileCreate p := by
  induction l with
  | nil => simp [prepDeps]
  | cons ns rest ih =>
    by_cases hp : ns.ns_type = NamespaceType.Pid
    · simp [prepDeps, hp]
    · cases hc : w.create_dir_all ns.persistent_ns_dir with
      | error e => simp [prepDeps, hp, hc]
      | ok u =>
        cases hf : w.file_create (pathJoin ns.persistent_ns_dir ns.ns_type.get) with
        | error e => simp [prepDeps, hp, hc, hf]
        | ok u2 =>
          rcases hrec : prepDeps w child rest with ⟨evs, rest1, res⟩
          intro ev hev
          have h2 : (prepDeps w child (ns :: rest)).1 =
              [NsEvent.createDirAll ns.persistent_ns_dir,
               NsEvent.fileCreate (pathJoin ns.persistent_ns_dir ns.ns_type.get)] ++ evs := by
            simp [prepDeps, hp, hc, hf, hrec]
          rw [h2] at hev
          rcases List.mem_append.mp hev with h3 | h3
          · rcases List.mem_cons.mp h3 with rfl | h4
            · exact Or.inl ⟨_, rfl⟩
            · rcases List.mem_cons.mp h4 with rfl | h5
              · exact Or.inr ⟨_, rfl⟩
              · cases h5
          · have h6 := ih
            rw [hrec] at h6
            exact h6 ev h3

theorem parentBranch_userns (w : PWorld) (child : Int) (prfd pwfd crfd cwfd : Nat)
    (userns : Namespace) (nses : List Namespace) :
    (parentBranch w child prfd pwfd crfd cwfd userns nses).userns = userns ∨
    (parentBranch w child prfd pwfd crfd cwfd userns nses).userns =
      { userns with path := pathJoin userns.persistent_ns_dir userns.ns_type.get } := by
  unfold parentBranch
  try simp only []
  repeat' split
  all_goals simp

theorem parentBranch_nses (w : PWorld) (child : Int) (prfd pwfd crfd cwfd : Nat)
    (userns : Namespace) (nses : List Namespace) :
    List.Forall₂ pathRel nses (parentBranch w child prfd pwfd crfd cwfd userns nses).nses := by
  have hrel := prepDeps_rel w child nses
  unfold parentBranch
  try simp only []
  repeat' split
  all_goals first | exact pathRel_refl nses | simp_all

theorem parentBranch_pid_error (w : PWorld) (child : Int) (prfd pwfd crfd cwfd : Nat)
    (userns : Namespace) (nses : List Namespace)
    (h : ∃ ns ∈ nses, ns.ns_type = NamespaceType.Pid) :
    ∃ e, (parentBranch w child prfd pwfd crfd cwfd userns nses).result = .error e := by
  rcases prepDeps_pid_error w child nses h with ⟨e0, he0⟩
  unfold parentBranch
  try simp only []
  repeat' split
  all_goals first | exact ⟨_, rfl⟩ | simp_all

theorem parentBranch_early_events (w : PWorld) (child : Int) (prfd pwfd crfd cwfd : Nat)
    (userns : Namespace) (nses : List Namespace)
    (h : ∃ ns ∈ nses, ns.ns_type = NamespaceType.Pid) :
    ∀ ev ∈ (parentBranch w child prfd pwfd crfd cwfd userns nses).events,
      (∃ fd, ev = NsEvent.closeFd fd) ∨ (∃ d, ev = NsEvent.createDirAll d) ∨
      ∃ p, ev = NsEvent.fileCreate p := by
  have hde := prepDeps_events w child nses
  rcases prepDeps_pid_error w child nses h with ⟨e0, he0⟩
  rcases hprep : prepDeps w child nses with ⟨devs, nses1, res⟩
  rw [hprep] at he0 hde
  simp at he0
  subst he0
  cases h1 : w.close crfd with
  | error e => simp [parentBranch, h1]
  | ok u1 =>
  cases h2 : w.close cwfd with
  | error e => simp [parentBranch, h1, h2]
  | ok u2 =>
  cases h3 : w.create_dir_all userns.persistent_ns_dir with
  | error e => simp [parentBranch, h1, h2, h3]
  | ok u3 =>
  cases h4 : w.file_create (pathJoin userns.persistent_ns_dir userns.ns_type.get) with
  | error e => simp [parentBranch, h1, h2, h3, h4]
  | ok u4 =>
    intro ev hev
    have hevs : (parentBranch w child prfd pwfd crfd cwfd userns nses).events =
        [NsEvent.closeFd crfd, NsEvent.closeFd cwfd,
         NsEvent.createDirAll userns.persistent_ns_dir,
         NsEvent.fileCreate (pathJoin userns.persistent_ns_dir userns.ns_type.get)]
          ++ devs := by
      simp [parentBranch, h1, h2, h3, h4, hprep]
    rw [hevs] at hev
    rcases List.mem_append.mp hev with h5 | h5
    · rcases List.mem_cons.mp h5 with rfl | h6
      · exact Or.inl ⟨_, rfl⟩
      · rcases List.mem_cons.mp h6 with rfl | h7
        · exact Or.inl ⟨_, rfl⟩
        · rcases List.mem_cons.mp h7 with rfl | h8
          · exact Or.inr (Or.inl ⟨_, rfl⟩)
          · rcases List.mem_cons.mp h8 with rfl | h9
            · exact Or.inr (Or.inr ⟨_, rfl⟩)
            · cases h9
    · rcases hde ev h5 with h6 | h6
      · exact Or.inr (Or.inl h6)
      · exact Or.inr (Or.inr h6)

theorem setup_in_userns_userns_rel (w : PWorld) (userns : Namespace)
    (nses : List Namespace) :
    (setup_in_userns w userns nses).userns = userns ∨
    (setup_in_userns w userns nses).userns =
      { userns with path := pathJoin userns.persistent_ns_dir userns.ns_type.get } := by
  unfold setup_in_userns
  cases h1 : w.pipe1 with
  | error e => simp
  | ok p1 =>
    obtain ⟨prfd, cwfd⟩ := p1
    cases h2 : w.pipe2 with
    | error e => simp
    | ok p2 =>
      obtain ⟨crfd, pwfd⟩ := p2
      cases h3 : w.fork with
      | error e => simp
      | ok child =>
        simpa using parentBranch_userns w child prfd pwfd crfd cwfd userns nses

theorem setup_in_userns_nses_rel (w : PWorld) (userns : Namespace)
    (nses : List Namespace) :
    List.Forall₂ pathRel nses (setup_in_userns w userns nses).nses := by
  unfold setup_in_userns
  cases h1 : w.pipe1 with
  | error e => exact pathRel_refl nses
  | ok p1 =>
    obtain ⟨prfd, cwfd⟩ := p1
    cases h2 : w.pipe2 with
    | error e => exact pathRel_refl nses
    | ok p2 =>
      obtain ⟨crfd, pwfd⟩ := p2
      cases h3 : w.fork with
      | error e => exact pathRel_refl nses
      | ok child =>
        exact parentBranch_nses w child prfd pwfd crfd cwfd userns nses

theorem setup_in_userns_pid_error (w : PWorld) (userns : Namespace)
    (nses : List Namespace)
    (h : ∃ ns ∈ nses, ns.ns_type = NamespaceType.Pid) :
    ∃ e, (setup_in_userns w userns nses).result = .error e := by
  unfold setup_in_userns
  cases h1 : w.pipe1 with
  | error e => exact ⟨e.context "failed to create pipe", rfl⟩
  | ok p1 =>
    obtain ⟨prfd, cwfd⟩ := p1
    cases h2 : w.pipe2 with
    | error e => exact ⟨e.context "failed to create pipe", rfl⟩
    | ok p2 =>
      obtain ⟨crfd, pwfd⟩ := p2
      cases h3 : w.fork with
      | error e => exact ⟨⟨"failed to fork namespace setup process"⟩, rfl⟩
      | ok child =>
        exact parentBranch_pid_error w child prfd pwfd crfd cwfd userns nses h

theorem setup_in_userns_pid_no_sync (w : PWorld) (userns : Namespace)
    (nses : List Namespace)
    (h : ∃ ns ∈ nses, ns.ns_type = NamespaceType.Pid) :
    NsEvent.readSync ∉ (setup_in_userns w userns nses).events ∧
    NsEvent.writeSync ∉ (setup_in_userns w userns nses).events := by
  unfold setup_in_userns
  cases h1 : w.pipe1 with
  | error e => simp
  | ok p1 =>
    obtain ⟨prfd, cwfd⟩ := p1
    cases h2 : w.pipe2 with
    | error e => simp
    | ok p2 =>
      obtain ⟨crfd, pwfd⟩ := p2
      cases h3 : w.fork with
      | error e => simp
      | ok child =>
        have hsh := parentBranch_early_events w child prfd pwfd crfd cwfd userns nses h
        constructor <;> intro hmem <;>
          rcases List.mem_append.mp hmem with h5 | h5
        · simp at h5
        · rcases hsh _ h5 with ⟨fd, h6⟩ | ⟨d, h6⟩ | ⟨p, h6⟩ <;> simp at h6
        · simp at h5
        · rcases hsh _ h5 with ⟨fd, h6⟩ | ⟨d, h6⟩ | ⟨p, h6⟩ <;> simp at h6

/-- Claim C1 (amended): a PID-kind `Namespace` is rejected by
`Namespace::setup`, and by `setup_in_userns` when it appears in the
dependent-namespace list, and in both those cases the PID-kind entity's
`path` is never populated; the user-namespace argument of `setup_in_userns`
is not subject to this check. -/
theorem pid_kind_rejection (w : SWorld) (pw : PWorld) (ns userns : Namespace)
    (nses : List Namespace)
    (hns : ns.ns_type = NamespaceType.Pid)
    (hdep : ∃ n ∈ nses, n.ns_type = NamespaceType.Pid) :
    (∃ e, (Namespace.setup w ns).2 = .error e) ∧
    (∃ e, (setup_in_userns pw userns nses).result = .error e) ∧
    List.Forall₂ (fun a b => a.ns_type = NamespaceType.Pid → b.path = a.path)
      nses (setup_in_userns pw userns nses).nses :=
  ⟨setup_pid_err w ns hns, setup_in_userns_pid_error pw userns nses hdep,
   List.Forall₂.imp (fun _ _ h => h.2) (setup_in_userns_nses_rel pw userns nses)⟩

/-- Counterexample for C1 as stated: `setup_in_userns` never checks the
user-namespace argument's kind, so a PID-kind entity passed there completes
successfully with its `path` populated to a non-empty string. -/
theorem pid_userns_argument_counterexample :
    (setup_in_userns pwAllOk Namespace.new.get_pid []).result = .ok () ∧
    (setup_in_userns pwAllOk Namespace.new.get_pid []).userns.path =
      "/var/run/sandbox-ns/pid" ∧
    Namespace.new.get_pid.path = "" := by
  decide

/-- Witness for C1's amended theorem. -/
theorem pid_kind_rejection_witness :
    (∃ e, (Namespace.setup swAllOk Namespace.new.get_pid).2 = .error e) ∧
    (∃ e, (setup_in_userns pwAllOk (Namespace.new.get_user [] [])
        [Namespace.new.get_pid]).result = .error e) ∧
    List.Forall₂ (fun a b => a.ns_type = NamespaceType.Pid → b.path = a.path)
      [Namespace.new.get_pid]
      (setup_in_userns pwAllOk (Namespace.new.get_user [] [])
        [Namespace.new.get_pid]).nses :=
  pid_kind_rejection swAllOk pwAllOk Namespace.new.get_pid
    (Namespace.new.get_user [] []) [Namespace.new.get_pid] rfl
    ⟨Namespace.new.get_pid, by decide, rfl⟩

/-- Claim C3 (amended): with a PID kind in the dependent list,
`setup_in_userns` fails in the parent after the fork, before the parent reads
or writes any handshake token. -/
theorem userns_pid_dep_fails_before_handshake (w : PWorld) (userns : Namespace)
    (nses : List Namespace)
    (h : ∃ n ∈ nses, n.ns_type = NamespaceType.Pid) :
    (∃ e, (setup_in_userns w userns nses).result = .error e) ∧
    NsEvent.readSync ∉ (setup_in_userns w userns nses).events ∧
    NsEvent.writeSync ∉ (setup_in_userns w userns nses).events :=
  ⟨setup_in_userns_pid_error w userns nses h,
   (setup_in_userns_pid_no_sync w userns nses h).1,
   (setup_in_userns_pid_no_sync w userns nses h).2⟩

/-- Counterexample for C3 as stated: the fork happens before the dependent
PID check, so the failing run has already created a child process. -/
theorem userns_pid_dep_fork_counterexample :
    NsEvent.fork ∈ (setup_in_userns pwAllOk (Namespace.new.get_user [] [])
      [Namespace.new.get_pid]).events ∧
    (setup_in_userns pwAllOk (Namespace.new.get_user [] [])
      [Namespace.new.get_pid]).result =
        .error ⟨"Cannot persist namespace of PID type"⟩ := by
  decide

/-- Witness for C3's amended theorem. -/
theorem userns_pid_dep_fails_before_handshake_witness :
    (∃ e, (setup_in_userns pwAllOk (Namespace.new.get_user [] [])
      [Namespace.new.get_pid]).result = .error e) ∧
    NsEvent.readSync ∉ (setup_in_userns pwAllOk (Namespace.new.get_user [] [])
      [Namespace.new.get_pid]).events ∧
    NsEvent.writeSync ∉ (setup_in_userns pwAllOk (Namespace.new.get_user [] [])
      [Namespace.new.get_pid]).events :=
  userns_pid_dep_fails_before_handshake pwAllOk (Namespace.new.get_user [] [])
    [Namespace.new.get_pid] ⟨Namespace.new.get_pid, by decide, rfl⟩

/-- Claim C8 (amended): `path` starts empty; `Namespace::setup` hands back a
populated `path` only on success (on error no entity is returned); but
`setup_in_userns` populates the borrowed entities' `path` fields to their
designated target paths before overall success is known, so a failure
partway through leaves already-processed entities populated. -/
theorem path_population (w : SWorld) (pw : PWorld) (ns ns2 userns : Namespace)
    (nses : List Namespace)
    (hok : (Namespace.setup w ns).2 = .ok ns2) :
    Namespace.new.path = "" ∧
    ns2.path = pathJoin ns.persistent_ns_dir ns.ns_type.get ∧
    ((setup_in_userns pw userns nses).userns = userns ∨
      (setup_in_userns pw userns nses).userns =
        { userns with path := pathJoin userns.persistent_ns_dir userns.ns_type.get }) ∧
    List.Forall₂ pathRel nses (setup_in_userns pw userns nses).nses :=
  ⟨rfl, setup_ok_path w ns ns2 hok, setup_in_userns_userns_rel pw userns nses,
   setup_in_userns_nses_rel pw userns nses⟩

/-- Counterexample for C8 as stated: a failing `setup_in_userns` run (a PID
kind found after a Net dependent was processed) leaves the Net entity and
the user-namespace argument with newly populated `path` fields. -/
theorem path_population_counterexample :
    (setup_in_userns pwAllOk (Namespace.new.get_user [] [])
        [Namespace.new.get_net, Namespace.new.get_pid]).result =
      .error ⟨"Cannot persist namespace of PID type"⟩ ∧
    ((setup_in_userns pwAllOk (Namespace.new.get_user [] [])
        [Namespace.new.get_net, Namespace.new.get_pid]).nses.map Namespace.path) =
      ["/var/run/sandbox-ns/net", ""] ∧
    (setup_in_userns pwAllOk (Namespace.new.get_user [] [])
        [Namespace.new.get_net, Namespace.new.get_pid]).userns.path =
      "/var/run/sandbox-ns/user" ∧
    Namespace.new.get_net.path = "" ∧ (Namespace.new.get_user [] []).path = "" := by
  decide

/-- Witness for C8's amended theorem. -/
theorem path_population_witness :
    Namespace.new.path = "" ∧
    ({ Namespace.new with path := "/var/run/sandbox-ns/ipc" } : Namespace).path =
      pathJoin Namespace.new.persistent_ns_dir Namespace.new.ns_type.get ∧
    ((setup_in_userns pwAllOk (Namespace.new.get_user [] []) []).userns =
        Namespace.new.get_user [] [] ∨
      (setup_in_userns pwAllOk (Namespace.new.get_user [] []) []).userns =
        { Namespace.new.get_user [] [] with
            path := pathJoin (Namespace.new.get_user [] []).persistent_ns_dir
              (Namespace.new.get_user [] []).ns_type.get }) ∧
    List.Forall₂ pathRel []
      (setup_in_userns pwAllOk (Namespace.new.get_user [] []) []).nses :=
  path_population swAllOk pwAllOk Namespace.new
    { Namespace.new with path := "/var/run/sandbox-ns/ipc" }
    (Namespace.new.get_user [] []) [] (by decide)
